import Mathlib

/-!
# Verification of the drand chain follow/check/correct controller

Shallow embedding of `src/internal/core/drand_beacon_control.go` (package
`core` of the drand fork under verification) together with theorems settling
the frozen claims about it.

Conventions of the embedding:
* Go `uint64` round numbers become `Nat` (the code never subtracts past zero:
  the only subtraction `targ - curr` happens after the clamp `curr ≤ targ`).
* Go channels are modelled explicitly: the `done` channel of the progress
  callback is a `Bool` flag plus a `panicked` flag recording a close of an
  already-closed channel (a Go runtime panic); the `errChan` of the follow
  loop is modelled by whether it is nil (a send/receive on a nil Go channel
  blocks forever).
* Stateful methods on `BeaconProcess` become functions from an explicit
  environment (the outcomes of the external collaborator calls) and the
  guarded node state to a result record that also logs which resources were
  opened, closed and released on that execution path.
-/

namespace Drand

/-! ## Progress reporting: `sendPlainProgressCallback` (lines 563-596)

The callback closes over the gRPC stream; we model one invocation of the
returned `cb` as a state transition on the list of messages attempted on the
stream plus the state of the `done` channel.  Transport failures of
`stream.Send` are logged and swallowed by the code (lines 586-588), so the
`sent` list records send *attempts*, which is all the claims talk about. -/

/-- Modelled from the spec: the constant skip-threshold `S`
(`common.LogsToSkip` in the drand codebase, which is not under `src/`).
The claims are insensitive to its value; we fix it at the upstream value. -/
def LogsToSkip : Nat := 300

/-- One `drand.SyncProgress` message: `{Current, Target}` (lines 582-585). -/
structure SyncProgress where
  current : Nat
  target : Nat
deriving Repr, DecidableEq

/-- State observable from one progress callback: the list of messages whose
send was attempted on the stream, and the state of the `done` channel.
`doneClosed` is true once `close(done)` ran; `panicked` records that
`close` was invoked on an already-closed channel, which is a Go runtime
panic (there is no once-guard in the code). -/
structure CbState where
  sent : List SyncProgress
  doneClosed : Bool
  panicked : Bool
deriving Repr, DecidableEq

/-- Fresh state: `done = make(chan struct\x7b\x7d)` (line 570), nothing sent. -/
def CbState.init : CbState := ⟨[], false, false⟩

/-- Go `close(done)`: closing an open channel marks it closed; closing an
already-closed channel is a runtime panic, recorded in `panicked`. -/
def closeChan (st : CbState) : CbState :=
  if st.doneClosed then { st with panicked := true }
  else { st with doneClosed := true }

/-- Lines 573-576: `if curr > targ \x7b targ = curr \x7d` — the clamp applied
before rate limiting and sending. -/
def clampTarget (curr targ : Nat) : Nat :=
  if curr > targ then curr else targ

/-- One invocation of the callback returned by `sendPlainProgressCallback`
(lines 572-593): clamp the target, rate-limit using `LogsToSkip`, attempt the
send, and close `done` when the (clamped) target is positive and reached and
`keepFollowing` is false. -/
def plainProgressCb (keepFollowing : Bool) (curr targ : Nat) (st : CbState) : CbState :=
  if LogsToSkip < clampTarget curr targ ∧ LogsToSkip < clampTarget curr targ - curr ∧
      curr % LogsToSkip ≠ 0 then
    st
  else if keepFollowing = false ∧ 0 < clampTarget curr targ ∧ curr = clampTarget curr targ then
    closeChan { st with sent := st.sent ++ [⟨curr, clampTarget curr targ⟩] }
  else
    { st with sent := st.sent ++ [⟨curr, clampTarget curr targ⟩] }

/-! ## The sync guard: `bp.syncerCancel` under `bp.state` (lines 269-296, 412-430)

The node stores at most one cancellation handle.  We tag handles with a `Nat`
identifier and record which handles have been cancelled, so that "cancel the
stored scope before clearing it" is expressible. -/

/-- Guarded node state: the stored cancellation handle (nil when no sync
session is active) and the log of handles that have been cancelled. -/
structure NodeGuard where
  syncerCancel : Option Nat
  cancelled : List Nat
deriving Repr, DecidableEq

/-- The deferred guard release (lines 287-296 and 423-430): under the lock,
cancel the stored handle if one is present, then clear the field. -/
def release (g : NodeGuard) : NodeGuard :=
  match g.syncerCancel with
  | some c => { syncerCancel := none, cancelled := g.cancelled ++ [c] }
  | none => g

/-! ## Chain-info fetching: `chainInfoFromPeers` (lines 494-528)

The loop keeps two mutable variables, `info *public.Info` and `err error`,
both assigned by every iteration: a transport failure
(`privGateway.ChainInfo`, line 513) sets `err` and leaves `info` alone; a
parse failure (`public.InfoFromProto`, line 518, a drand function outside
`src/` that follows the universal Go convention of returning `(nil, err)` on
failure) sets `err` and overwrites `info` with nil; a successful parse sets
`info` and clears `err`.  Chain-info payloads are represented by an opaque
`Nat` identifier, error values likewise. -/

/-- Outcome of querying one peer, in list order. -/
inductive PeerReply
  | transportFail (e : Nat)
  | parseFail (e : Nat)
  | parsed (info : Nat)
deriving Repr, DecidableEq

/-- One iteration of the loop at lines 511-523 acting on the pair
`(info, err)`. -/
def chainInfoStep (acc : Option Nat × Option Nat) (r : PeerReply) : Option Nat × Option Nat :=
  match r with
  | .transportFail e => (acc.1, some e)
  | .parseFail e => (none, some e)
  | .parsed i => (some i, none)

/-- Result of `chainInfoFromPeers`: either a chain info, or the
"unable to get chain info successfully. Last err: ..." failure carrying the
last observed error (lines 524-526). -/
inductive FetchResult
  | ok (info : Nat)
  | noReachablePeer (lastErr : Option Nat)
deriving Repr, DecidableEq

/-- Function `chainInfoFromPeers` (lines 509-527): scan all peers, then fail if and
only if the tracked `info` ended up nil. -/
def chainInfoFromPeers (rs : List PeerReply) : FetchResult :=
  match rs.foldl chainInfoStep (none, none) with
  | (none, e) => .noReachablePeer e
  | (some i, _) => .ok i

/-- The parse attempts the loop makes, in order: one entry per peer whose
transport succeeded, holding that peer's parse result. -/
def parseAttempts (rs : List PeerReply) : List (Option Nat) :=
  rs.filterMap fun r =>
    match r with
    | .transportFail _ => none
    | .parseFail _ => some none
    | .parsed i => some (some i)

/-- The error value one peer's outcome leaves in `err`. -/
def peerErr (r : PeerReply) : Option Nat :=
  match r with
  | .transportFail e => some e
  | .parseFail e => some e
  | .parsed _ => none

/-- The last observed error of a scan: the error left by the final peer
(nil for an empty peer list). -/
def lastObservedErr (rs : List PeerReply) : Option Nat :=
  (rs.getLast?).elim none peerErr

/-! ## The follow retry loop (lines 373-395)

Line 374 declares `var errChan chan error` and no `make` ever follows: the
zero value of a Go channel type is nil.  Both the goroutine's
`errChan <- syncer.Sync(...)` (line 379) and the select's `case <-errChan`
(line 388) block forever on a nil channel, so the failure of a sync attempt
can never be observed by the select. -/

/-- Line 374: `errChan` is declared with `var` and never allocated, hence nil. -/
def startFollowErrChanIsNil : Bool := true

/-- Behaviour of the `for` loop at lines 376-395 when the sync engine fails
`failures` times and would then succeed (reaching the target closes `done`),
with no cancellation.  The result is `some (attempts, sleeps)`: the number of
`syncer.Sync` invocations and of `time.Sleep(info.Period)` pauses before the
loop returns success.  `none` means the select blocks forever: with a nil
`errChan` a failed attempt is never reported, no new attempt is launched, and
`done` never closes. -/
def followLoop (errChanNil : Bool) : Nat → Option (Nat × Nat)
  | 0 => some (1, 0)
  | failures + 1 =>
    if errChanNil then none
    else (followLoop errChanNil failures).map fun p => (p.1 + 1, p.2 + 1)

/-! ## `StartFollowChain` (lines 263-396)

The environment records the outcome of each external call the method makes,
in program order; the result records the returned error (if any), the guard
state after the deferred release, and which per-session resources were
opened and closed on the taken path.

Deferred statements of the source and how each exit below accounts for them:
* lines 287-296 — guard release, registered right after the handle is stored,
  so it runs on every exit past the contention check (`release` applied to
  the updated guard);
* line 349 — `defer cbStore.Close()`.  Modelled from the spec: closing the
  callback store tears the decorator stack down and closes the wrapped
  store (spec section 4.3 step 5, resources of step 2 closed on any exit),
  the decorators `NewSchemeStore`/`NewCallbackStore` being drand code not
  under `src/`; hence exits past line 349 set `storeClosed` as well;
* line 355 — `defer cbStore.RemoveCallback(addr)`;
* line 371 — `defer syncer.Stop()`.

Note that the explicit `store.Close()` at line 333 runs only on the
genesis-insertion error path, and that the error returns at lines 340 and
344 (scheme lookup and scheme-store construction) run no deferred close for
the bolt store opened at line 324. -/

/-- Outcomes of the collaborator calls made by `StartFollowChain`, in
program order.  `loopCancelled` selects between the only two branches the
final select can take (its `errChan` case being dead, see `followLoop`):
`false` = the `done` channel closes (target reached, return nil), `true` =
the caller's context is cancelled first (return ctx.Err()). -/
structure FollowEnv where
  chainInfoOk : Bool
  hashOk : Bool
  beaconIDOk : Bool
  storeOk : Bool
  genesisOk : Bool
  schemeOk : Bool
  schemeStoreOk : Bool
  syncerOk : Bool
  loopCancelled : Bool
deriving Repr, DecidableEq

/-- Errors `StartFollowChain` can return. -/
inductive FollowError
  | alreadyInProgress
  | chainInfoFail
  | hashMismatch
  | invalidBeaconID
  | storeCreateFail
  | genesisPutFail
  | schemeFail
  | schemeStoreFail
  | syncerNewFail
  | ctxCancelled
deriving Repr, DecidableEq

/-- Message of each returned error.  Only the contention message (line 273)
is load-bearing for the claims and is quoted verbatim; the others abbreviate
the `fmt`-wrapped messages of their return sites. -/
def FollowError.message : FollowError → String
  | .alreadyInProgress => "syncing is already in progress"
  | .chainInfoFail => "unable to get chain info successfully"
  | .hashMismatch => "chain hash mismatch"
  | .invalidBeaconID => "invalid beacon id on chain info"
  | .storeCreateFail => "unable to create store"
  | .genesisPutFail => "unable to insert genesis block"
  | .schemeFail => "invalid scheme name in chain info"
  | .schemeStoreFail => "unable to create scheme store"
  | .syncerNewFail => "unable to create sync manager"
  | .ctxCancelled => "context canceled"

/-- Result of one `StartFollowChain` invocation: return value, guard state
on exit, and the resource ledger of the taken path. -/
structure FollowResult where
  ret : Option FollowError
  guard : NodeGuard
  storeOpened : Bool := false
  storeClosed : Bool := false
  cbStoreOpened : Bool := false
  cbStoreClosed : Bool := false
  callbackAdded : Bool := false
  callbackRemoved : Bool := false
deriving Repr, DecidableEq

/-- Method `StartFollowChain` (lines 263-396) as a function of the collaborator
outcomes and the guarded node state; `h` identifies the fresh cancellation
handle created at line 283. -/
def StartFollowChain (env : FollowEnv) (g : NodeGuard) (h : Nat) : FollowResult :=
  if (g.syncerCancel).isSome then
    { ret := some .alreadyInProgress, guard := g }
  else if env.chainInfoOk = false then
    { ret := some .chainInfoFail, guard := release { g with syncerCancel := some h } }
  else if env.hashOk = false then
    { ret := some .hashMismatch, guard := release { g with syncerCancel := some h } }
  else if env.beaconIDOk = false then
    { ret := some .invalidBeaconID, guard := release { g with syncerCancel := some h } }
  else if env.storeOk = false then
    { ret := some .storeCreateFail, guard := release { g with syncerCancel := some h } }
  else if env.genesisOk = false then
    { ret := some .genesisPutFail, guard := release { g with syncerCancel := some h },
      storeOpened := true, storeClosed := true }
  else if env.schemeOk = false then
    { ret := some .schemeFail, guard := release { g with syncerCancel := some h },
      storeOpened := true, storeClosed := false }
  else if env.schemeStoreOk = false then
    { ret := some .schemeStoreFail, guard := release { g with syncerCancel := some h },
      storeOpened := true, storeClosed := false }
  else if env.syncerOk = false then
    { ret := some .syncerNewFail, guard := release { g with syncerCancel := some h },
      storeOpened := true, storeClosed := true, cbStoreOpened := true, cbStoreClosed := true,
      callbackAdded := true, callbackRemoved := true }
  else if env.loopCancelled then
    { ret := some .ctxCancelled, guard := release { g with syncerCancel := some h },
      storeOpened := true, storeClosed := true, cbStoreOpened := true, cbStoreClosed := true,
      callbackAdded := true, callbackRemoved := true }
  else
    { ret := none, guard := release { g with syncerCancel := some h },
      storeOpened := true, storeClosed := true, cbStoreOpened := true, cbStoreClosed := true,
      callbackAdded := true, callbackRemoved := true }

/-! ## `StartCheckChain` (lines 399-491) -/

/-- Outcomes of the collaborator calls made by `StartCheckChain`.
`validateFails`/`correctFails` are `some e` when `ValidateChain` /
`CorrectChain` returns an error; `faulty` is the faulty-beacon list a
successful validation produces; `correctCancelled` selects the branch of the
final select (line 483): `false` = `done` closes first, `true` = context
cancelled first. -/
structure CheckEnv where
  beaconExists : Bool
  validateFails : Option Nat
  faulty : List Nat
  nodes : List String
  selfAddr : String
  correctFails : Option Nat
  correctCancelled : Bool
deriving Repr, DecidableEq

/-- Errors `StartCheckChain` can return. -/
inductive CheckError
  | notBootstrapped
  | alreadyInProgress
  | validateFail (e : Nat)
  | correctFail (e : Nat)
  | ctxCancelled
deriving Repr, DecidableEq

/-- Message of each returned error; the two precondition messages
(lines 407 and 415) are quoted verbatim. -/
def CheckError.message : CheckError → String
  | .notBootstrapped =>
      "beacon handler is nil, you might need to first --follow a chain and start aggregating beacons"
  | .alreadyInProgress => "syncing is already in progress"
  | .validateFail _ => "validate chain failed"
  | .correctFail _ => "correct chain failed"
  | .ctxCancelled => "context canceled"

/-- Result of one `StartCheckChain` invocation.  `resetSent` records the
mid-stream target-reset message of lines 453-456 (its transport failure is
only logged, line 458, so the attempt is what we track); `correctionCalled`
records whether `bp.beacon.CorrectChain` (line 477) was invoked. -/
structure CheckResult where
  ret : Option CheckError
  guard : NodeGuard
  correctionCalled : Bool := false
  resetSent : Bool := false
deriving Repr, DecidableEq

/-- Method `StartCheckChain` (lines 399-491) as a function of the collaborator
outcomes and the guarded node state.  The `bp.beacon == nil` precondition
(line 406) is tested before the guard is examined (line 412); the dry-run
test (line 462) is `len(req.Nodes) == 1 && req.Nodes[0] == bp.priv.Public.Addr`. -/
def StartCheckChain (env : CheckEnv) (g : NodeGuard) (h : Nat) : CheckResult :=
  if env.beaconExists = false then
    { ret := some .notBootstrapped, guard := g }
  else if (g.syncerCancel).isSome then
    { ret := some .alreadyInProgress, guard := g }
  else
    match env.validateFails with
    | some e => { ret := some (.validateFail e), guard := release { g with syncerCancel := some h } }
    | none =>
      if env.faulty.length = 0 ∨ (env.nodes.length = 1 ∧ env.nodes.headD "" = env.selfAddr) then
        { ret := none, guard := release { g with syncerCancel := some h }, resetSent := true }
      else
        match env.correctFails with
        | some e =>
          { ret := some (.correctFail e), guard := release { g with syncerCancel := some h },
            resetSent := true, correctionCalled := true }
        | none =>
          if env.correctCancelled then
            { ret := some .ctxCancelled, guard := release { g with syncerCancel := some h },
              resetSent := true, correctionCalled := true }
          else
            { ret := none, guard := release { g with syncerCancel := some h },
              resetSent := true, correctionCalled := true }

/-! ## `validateGroupTransition` (lines 598-633) -/

/-- The group fields the predicate reads (`key.Group` is drand code outside
`src/`; only the five fields the predicate touches are modelled, as listed by
the spec's data model).  `GetGenesisSeed` is modelled as the seed bytes. -/
structure Group where
  genesisTime : Int
  period : Int
  id : String
  genesisSeed : List Nat
  transitionTime : Int
deriving Repr, DecidableEq

/-- The distinct error kinds of the predicate, one per return site
(lines 604, 610, 615, 620, 625, 630). -/
inductive TransitionError
  | nilNewGroup
  | genesisTimeMismatch
  | periodMismatch
  | idMismatch
  | seedMismatch
  | pastTransition
deriving Repr, DecidableEq

/-- Outcome of the predicate.  `nilDeref` records that the Go code would
dereference a nil `newGroup` pointer (line 608) when `oldGroup` is non-nil
and `newGroup` is nil — a runtime panic, not a return; the spec declares
`newGroup` non-null so no claim exercises it. -/
inductive TransitionOutcome
  | ok
  | errKind (e : TransitionError)
  | nilDeref
deriving Repr, DecidableEq

/-- Function `common.CompareBeaconIDs` (drand code outside `src/`): beacon IDs are
compared up to the canonical form in which the empty ID means "default". -/
def CompareBeaconIDs (a b : String) : Bool :=
  (if a = "" then "default" else a) = (if b = "" then "default" else b)

/-- Method `validateGroupTransition` (lines 598-633).  `now` is
`bp.opts.clock.Now().Unix()` (line 627).  The embedding is pure by
construction: neither group value is modified. -/
def validateGroupTransition (oldGroup newGroup : Option Group) (now : Int) : TransitionOutcome :=
  match oldGroup with
  | none =>
    match newGroup with
    | none => .errKind .nilNewGroup
    | some _ => .ok
  | some o =>
    match newGroup with
    | none => .nilDeref
    | some n =>
      if o.genesisTime ≠ n.genesisTime then .errKind .genesisTimeMismatch
      else if o.period ≠ n.period then .errKind .periodMismatch
      else if CompareBeaconIDs o.id n.id = false then .errKind .idMismatch
      else if o.genesisSeed ≠ n.genesisSeed then .errKind .seedMismatch
      else if n.transitionTime < now then .errKind .pastTransition
      else .ok

/-- The five ordered checks of the non-nil case, as (passes, error-kind)
pairs, following the spec's wording "in order: equal genesis time; equal
period; equal beacon identifier; byte-equal genesis seed;
transitionTime >= currentTime". -/
def transitionChecks (o n : Group) (now : Int) : List (Bool × TransitionError) :=
  [ (decide (o.genesisTime = n.genesisTime), .genesisTimeMismatch),
    (decide (o.period = n.period), .periodMismatch),
    (CompareBeaconIDs o.id n.id, .idMismatch),
    (decide (o.genesisSeed = n.genesisSeed), .seedMismatch),
    (decide (now ≤ n.transitionTime), .pastTransition) ]

/-- First failing check of an ordered check list, if any. -/
def firstFailing : List (Bool × TransitionError) → Option TransitionError
  | [] => none
  | (pass, e) :: rest => if pass then firstFailing rest else some e

/-! ## Concrete environments used by witnesses and counterexamples -/

/-- Follow environment in which every collaborator call succeeds and the
target is reached. -/
def allOkEnv : FollowEnv :=
  { chainInfoOk := true, hashOk := true, beaconIDOk := true, storeOk := true,
    genesisOk := true, schemeOk := true, schemeStoreOk := true, syncerOk := true,
    loopCancelled := false }

/-- Follow environment in which the caller cancels during the sync loop. -/
def cancelledEnv : FollowEnv := { allOkEnv with loopCancelled := true }

/-- Follow environment in which `crypto.SchemeFromName` fails (line 338)
after the store was created and the genesis beacon inserted. -/
def schemeFailEnv : FollowEnv := { allOkEnv with schemeOk := false }

/-- Guard with no active session. -/
def freeGuard : NodeGuard := { syncerCancel := none, cancelled := [] }

/-- Guard with an active session holding cancellation handle 3. -/
def busyGuard : NodeGuard := { syncerCancel := some 3, cancelled := [] }

/-- Check environment of a node that has no local beacon instance. -/
def noBeaconEnv : CheckEnv :=
  { beaconExists := false, validateFails := none, faulty := [], nodes := ["peer1:8080"],
    selfAddr := "self:8080", correctFails := none, correctCancelled := false }

/-- Check environment of a bootstrapped node whose validation pass finds two
faulty rounds and whose request carries only the node's own address. -/
def dryRunEnv : CheckEnv :=
  { beaconExists := true, validateFails := none, faulty := [4, 9], nodes := ["self:8080"],
    selfAddr := "self:8080", correctFails := none, correctCancelled := false }

/-! ## Helper lemmas -/

/-- Closing the done channel never touches the list of sent messages. -/
theorem closeChan_sent (st : CbState) : (closeChan st).sent = st.sent := by
  unfold closeChan
  split <;> rfl

/-- The clamp of lines 573-576 computes the maximum of current and target. -/
theorem clampTarget_eq_max (curr targ : Nat) : clampTarget curr targ = max curr targ := by
  unfold clampTarget
  rcases Nat.lt_or_ge targ curr with hc | hc
  · rw [if_pos hc]
    exact (Nat.max_eq_left (Nat.le_of_lt hc)).symm
  · rw [if_neg (Nat.not_lt.mpr hc)]
    exact (Nat.max_eq_right hc).symm

/-- Messages attempted by one callback invocation: nothing when the
rate limiter suppresses, exactly one clamped message otherwise. -/
theorem plainProgressCb_sent (kf : Bool) (curr targ : Nat) (st : CbState) :
    (plainProgressCb kf curr targ st).sent =
      if LogsToSkip < max curr targ ∧ LogsToSkip < max curr targ - curr ∧
          curr % LogsToSkip ≠ 0 then st.sent
      else st.sent ++ [⟨curr, max curr targ⟩] := by
  unfold plainProgressCb
  rw [clampTarget_eq_max]
  split
  · rfl
  · split
    · rw [closeChan_sent]
    · rfl

/-- Characterization of the scan loop of `chainInfoFromPeers`: after folding
over all peers, `info` holds the result of the last parse attempt (the last
peer whose transport succeeded), and `err` holds the error left by the last
peer processed. -/
theorem chainInfo_foldl (rs : List PeerReply) (acc : Option Nat × Option Nat) :
    rs.foldl chainInfoStep acc =
      (((parseAttempts rs).getLast?).elim acc.1 id,
        (rs.getLast?).elim acc.2 peerErr) := by
  induction rs using List.reverseRecOn with
  | nil => rfl
  | append_singleton l r ih =>
    rw [List.foldl_append, ih]
    cases r with
    | transportFail e =>
      simp [chainInfoStep, parseAttempts, List.filterMap_append, List.getLast?_concat, peerErr]
    | parseFail e =>
      simp [chainInfoStep, parseAttempts, List.filterMap_append, List.getLast?_concat, peerErr]
    | parsed i =>
      simp [chainInfoStep, parseAttempts, List.filterMap_append, List.getLast?_concat, peerErr]

/-- A list never equals itself extended by one element. -/
theorem append_singleton_ne (l : List SyncProgress) (m : SyncProgress) : l ++ [m] ≠ l := by
  intro hEq
  have := congrArg List.length hEq
  simp at this

/-- One callback invocation with an already-reached positive target: send the
message, then close the done channel (lines 582-592). -/
theorem plainProgressCb_self_close (N : Nat) (h : 0 < N) (st : CbState) :
    plainProgressCb false N N st = closeChan { st with sent := st.sent ++ [⟨N, N⟩] } := by
  unfold plainProgressCb
  rw [clampTarget_eq_max, Nat.max_self]
  rw [if_neg (fun hc => Nat.not_lt_zero LogsToSkip (Nat.sub_self N ▸ hc.2.1))]
  rw [if_pos ⟨rfl, h, rfl⟩]

/-! ## Claim theorems -/

/-- C5: a call `(current, target)` of the progress callback is suppressed if
and only if, with the clamped target `max current target`, the target exceeds
the skip-threshold, the distance to the target exceeds the skip-threshold,
and the current round is not aligned to the skip-threshold; and every call
with `current = target` results in a send attempt carrying exactly that pair. -/
theorem progress_rate_limit_iff (kf : Bool) (curr targ : Nat) (st : CbState) :
    ((plainProgressCb kf curr targ st).sent = st.sent ↔
      (LogsToSkip < max curr targ ∧ LogsToSkip < max curr targ - curr ∧
        curr % LogsToSkip ≠ 0)) ∧
    (curr = targ → (plainProgressCb kf curr targ st).sent = st.sent ++ [⟨curr, targ⟩]) := by
  constructor
  · rw [plainProgressCb_sent]
    by_cases hs : LogsToSkip < max curr targ ∧ LogsToSkip < max curr targ - curr ∧
        curr % LogsToSkip ≠ 0
    · rw [if_pos hs]
      simp [hs]
    · rw [if_neg hs]
      constructor
      · intro hEq
        exact absurd hEq (append_singleton_ne _ _)
      · intro hC
        exact absurd hC hs
  · intro hct
    subst hct
    rw [plainProgressCb_sent, Nat.max_self]
    rw [if_neg (fun hc => Nat.not_lt_zero LogsToSkip (Nat.sub_self curr ▸ hc.2.1))]

/-- C5 witness: a call with `current = target = 3` is never suppressed: the
send attempt carries `(3, 3)`. -/
theorem progress_rate_limit_iff_witness :
    (plainProgressCb false 3 3 CbState.init).sent = CbState.init.sent ++ [⟨3, 3⟩] :=
  (progress_rate_limit_iff false 3 3 CbState.init).2 rfl

/-- C6: every message a callback invocation emits satisfies
`current ≤ target` (the emitted message, if any, is the clamped pair), and a
call with `current > target` always emits the message `(current, current)` —
a target below the current round is never reported. -/
theorem progress_clamp (kf : Bool) (curr targ : Nat) (st : CbState) :
    ((plainProgressCb kf curr targ st).sent = st.sent ∨
      ∃ m, (plainProgressCb kf curr targ st).sent = st.sent ++ [m] ∧
        m.current ≤ m.target) ∧
    (targ < curr → (plainProgressCb kf curr targ st).sent = st.sent ++ [⟨curr, curr⟩]) := by
  constructor
  · rw [plainProgressCb_sent]
    by_cases hs : LogsToSkip < max curr targ ∧ LogsToSkip < max curr targ - curr ∧
        curr % LogsToSkip ≠ 0
    · rw [if_pos hs]
      exact Or.inl rfl
    · rw [if_neg hs]
      exact Or.inr ⟨⟨curr, max curr targ⟩, rfl, Nat.le_max_left curr targ⟩
  · intro hlt
    rw [plainProgressCb_sent, Nat.max_eq_left (Nat.le_of_lt hlt)]
    rw [if_neg (fun hc => Nat.not_lt_zero LogsToSkip (Nat.sub_self curr ▸ hc.2.1))]

/-- C6 witness: a call with `current = 9 > target = 4` emits `(9, 9)`. -/
theorem progress_clamp_witness :
    (plainProgressCb true 9 4 CbState.init).sent = CbState.init.sent ++ [⟨9, 9⟩] :=
  (progress_clamp true 9 4 CbState.init).2 (by decide)

/-- C3 counterexample: with `keepFollowing = false`, a second call with the
same `current = target = 5 > 0` is not a no-op with respect to the signal: it
runs `close(done)` on the already-closed channel — a double close (Go runtime
panic), refuting the claim that the second call "does not error or
double-close the channel". -/
theorem progress_done_double_close_counterexample :
    (plainProgressCb false 5 5 (plainProgressCb false 5 5 CbState.init)).panicked = true ∧
    (plainProgressCb false 5 5 CbState.init).panicked = false := by
  decide

/-- C3 amended: with `keepFollowing = false`, the first call with
`current = target = N > 0` closes the done channel
(signals completion) exactly once and does not panic; a second identical call
closes the already-closed channel — a double close, which in Go panics — and
is therefore not a no-op with respect to the signal. -/
theorem progress_done_signal_amended (N : Nat) (h : 0 < N) :
    (plainProgressCb false N N CbState.init).doneClosed = true ∧
    (plainProgressCb false N N CbState.init).panicked = false ∧
    (plainProgressCb false N N (plainProgressCb false N N CbState.init)).panicked = true := by
  rw [plainProgressCb_self_close N h CbState.init]
  rw [plainProgressCb_self_close N h]
  simp [closeChan, CbState.init]

/-- C3 amended witness at `N = 7`. -/
theorem progress_done_signal_amended_witness :
    0 < 7 ∧
    ((plainProgressCb false 7 7 CbState.init).doneClosed = true ∧
      (plainProgressCb false 7 7 CbState.init).panicked = false ∧
      (plainProgressCb false 7 7 (plainProgressCb false 7 7 CbState.init)).panicked = true) :=
  ⟨by decide, progress_done_signal_amended 7 (by decide)⟩

/-- C2 counterexample: with a cancellation handle stored (a sync session
active) but no local beacon instance, a check invocation does not return the
error "syncing is already in progress": the `bp.beacon == nil` test at
line 406 runs first and returns the not-bootstrapped error, refuting the
claim that every follow or check invocation under a stored handle returns
the contention error. -/
theorem checkChain_busy_guard_counterexample :
    (StartCheckChain noBeaconEnv busyGuard 7).ret = some CheckError.notBootstrapped ∧
    (StartCheckChain noBeaconEnv busyGuard 7).ret ≠ some CheckError.alreadyInProgress ∧
    CheckError.message CheckError.notBootstrapped ≠ "syncing is already in progress" := by
  decide

/-- C2 amended: if a cancellation handle is already stored, any follow
invocation, and any check invocation on a node whose local beacon instance
exists, returns the error "syncing is already in progress" without replacing
the stored handle or making any other state change (guard unchanged, no
resource opened, no message sent, no correction started); and the guard
release cancels the stored scope before clearing it, tolerates a cleared
handle, and is idempotent. -/
theorem syncGuard_contention_and_release (envF : FollowEnv) (envC : CheckEnv)
    (g gr : NodeGuard) (hF hC c cr : Nat)
    (hg : g.syncerCancel = some c) (hb : envC.beaconExists = true)
    (hgr : gr.syncerCancel = some cr) :
    (StartFollowChain envF g hF).ret = some FollowError.alreadyInProgress ∧
    (StartFollowChain envF g hF).guard = g ∧
    (StartFollowChain envF g hF).storeOpened = false ∧
    (StartFollowChain envF g hF).cbStoreOpened = false ∧
    FollowError.message FollowError.alreadyInProgress = "syncing is already in progress" ∧
    (StartCheckChain envC g hC).ret = some CheckError.alreadyInProgress ∧
    (StartCheckChain envC g hC).guard = g ∧
    (StartCheckChain envC g hC).correctionCalled = false ∧
    (StartCheckChain envC g hC).resetSent = false ∧
    CheckError.message CheckError.alreadyInProgress = "syncing is already in progress" ∧
    (release gr).syncerCancel = none ∧
    cr ∈ (release gr).cancelled ∧
    release (release gr) = release gr ∧
    release { gr with syncerCancel := none } = { gr with syncerCancel := none } := by
  have hsome : (g.syncerCancel).isSome = true := by rw [hg]; rfl
  refine ⟨?_, ?_, ?_, ?_, rfl, ?_, ?_, ?_, ?_, rfl, ?_, ?_, ?_, ?_⟩
  · unfold StartFollowChain
    rw [if_pos hsome]
  · unfold StartFollowChain
    rw [if_pos hsome]
  · unfold StartFollowChain
    rw [if_pos hsome]
  · unfold StartFollowChain
    rw [if_pos hsome]
  · unfold StartCheckChain
    rw [if_neg (by rw [hb]; simp), if_pos hsome]
  · unfold StartCheckChain
    rw [if_neg (by rw [hb]; simp), if_pos hsome]
  · unfold StartCheckChain
    rw [if_neg (by rw [hb]; simp), if_pos hsome]
  · unfold StartCheckChain
    rw [if_neg (by rw [hb]; simp), if_pos hsome]
  · unfold release
    rw [hgr]
  · unfold release
    rw [hgr]
    simp
  · unfold release
    rw [hgr]
  · unfold release
    rfl

/-- C2 amended witness: busy guard holding handle 3, a bootstrapped check
environment, and a second busy guard for the release properties. -/
theorem syncGuard_contention_and_release_witness :
    dryRunEnv.beaconExists = true ∧
    ((StartFollowChain allOkEnv busyGuard 8).ret = some FollowError.alreadyInProgress ∧
      (StartFollowChain allOkEnv busyGuard 8).guard = busyGuard ∧
      (StartFollowChain allOkEnv busyGuard 8).storeOpened = false ∧
      (StartFollowChain allOkEnv busyGuard 8).cbStoreOpened = false ∧
      FollowError.message FollowError.alreadyInProgress = "syncing is already in progress" ∧
      (StartCheckChain dryRunEnv busyGuard 9).ret = some CheckError.alreadyInProgress ∧
      (StartCheckChain dryRunEnv busyGuard 9).guard = busyGuard ∧
      (StartCheckChain dryRunEnv busyGuard 9).correctionCalled = false ∧
      (StartCheckChain dryRunEnv busyGuard 9).resetSent = false ∧
      CheckError.message CheckError.alreadyInProgress = "syncing is already in progress" ∧
      (release busyGuard).syncerCancel = none ∧
      3 ∈ (release busyGuard).cancelled ∧
      release (release busyGuard) = release busyGuard ∧
      release { busyGuard with syncerCancel := none } =
        { busyGuard with syncerCancel := none }) :=
  ⟨rfl, syncGuard_contention_and_release allOkEnv dryRunEnv busyGuard busyGuard 8 9 3 3
    rfl rfl rfl⟩

/-- C10: in `StartCheckChain` the not-yet-bootstrapped precondition
(line 406) is tested before the sync guard is examined (line 412): whenever
no local beacon instance exists the caller receives the not-bootstrapped
error regardless of the guard state — even while another sync is in
progress — and the stored cancellation handle is neither read under the
guard protocol nor modified, no reset message is sent and no correction is
started. -/
theorem checkChain_precondition_before_guard (env : CheckEnv) (g : NodeGuard) (h : Nat)
    (hb : env.beaconExists = false) :
    (StartCheckChain env g h).ret = some CheckError.notBootstrapped ∧
    (StartCheckChain env g h).guard = g ∧
    (StartCheckChain env g h).correctionCalled = false ∧
    (StartCheckChain env g h).resetSent = false := by
  unfold StartCheckChain
  rw [if_pos hb]
  exact ⟨rfl, rfl, rfl, rfl⟩

/-- C10 witness: no beacon instance, guard busy with handle 3 (another sync
in progress). -/
theorem checkChain_precondition_before_guard_witness :
    noBeaconEnv.beaconExists = false ∧
    ((StartCheckChain noBeaconEnv busyGuard 11).ret = some CheckError.notBootstrapped ∧
      (StartCheckChain noBeaconEnv busyGuard 11).guard = busyGuard ∧
      (StartCheckChain noBeaconEnv busyGuard 11).correctionCalled = false ∧
      (StartCheckChain noBeaconEnv busyGuard 11).resetSent = false) :=
  ⟨rfl, checkChain_precondition_before_guard noBeaconEnv busyGuard 11 rfl⟩

/-- C8: a check/correct invocation (bootstrapped node, free guard) whose
validation pass succeeds and either finds no faulty beacon or whose request
carries exactly the node's own address performs zero correction calls and
returns success. -/
theorem checkChain_dry_run_short_circuit (env : CheckEnv) (g : NodeGuard) (h : Nat)
    (hb : env.beaconExists = true) (hg : g.syncerCancel = none)
    (hv : env.validateFails = none)
    (hd : env.faulty = [] ∨ env.nodes = [env.selfAddr]) :
    (StartCheckChain env g h).correctionCalled = false ∧
    (StartCheckChain env g h).ret = none := by
  have hcond : env.faulty.length = 0 ∨
      (env.nodes.length = 1 ∧ env.nodes.headD "" = env.selfAddr) := by
    rcases hd with hd | hd
    · exact Or.inl (by rw [hd]; rfl)
    · exact Or.inr (by rw [hd]; exact ⟨rfl, rfl⟩)
  unfold StartCheckChain
  rw [if_neg (by rw [hb]; simp), if_neg (by rw [hg]; simp), hv]
  rw [if_pos hcond]
  exact ⟨rfl, rfl⟩

/-- C8 witness: two faulty beacons but a peer list equal to the node's own
address — a dry run: no correction, success. -/
theorem checkChain_dry_run_short_circuit_witness :
    (dryRunEnv.beaconExists = true ∧ freeGuard.syncerCancel = none ∧
      dryRunEnv.validateFails = none ∧ dryRunEnv.nodes = [dryRunEnv.selfAddr]) ∧
    ((StartCheckChain dryRunEnv freeGuard 4).correctionCalled = false ∧
      (StartCheckChain dryRunEnv freeGuard 4).ret = none) :=
  ⟨⟨rfl, rfl, rfl, rfl⟩,
    checkChain_dry_run_short_circuit dryRunEnv freeGuard 4 rfl rfl rfl (Or.inr rfl)⟩

/-- C9: evaluation of `StartFollowChain` on the failing input and on the
success/cancellation paths.  When `crypto.SchemeFromName` fails (line 338)
after the store was created (line 324) and genesis inserted, the method
returns with the sync guard released but the bolt store left open — the
return at line 340 runs no `store.Close()`, contradicting the claimed
guaranteed close of every bootstrap resource on every exit path (same for the
`NewSchemeStore` error return at line 344).  On the success path and on the
cancellation path the guard is released and store, callback store and
callback registration are all torn down by the deferred calls. -/
theorem followChain_scheme_error_leaks_store :
    (StartFollowChain schemeFailEnv freeGuard 1).ret = some FollowError.schemeFail ∧
    (StartFollowChain schemeFailEnv freeGuard 1).storeOpened = true ∧
    (StartFollowChain schemeFailEnv freeGuard 1).storeClosed = false ∧
    (StartFollowChain schemeFailEnv freeGuard 1).guard.syncerCancel = none ∧
    (StartFollowChain allOkEnv freeGuard 1).ret = none ∧
    (StartFollowChain allOkEnv freeGuard 1).storeClosed = true ∧
    (StartFollowChain allOkEnv freeGuard 1).cbStoreClosed = true ∧
    (StartFollowChain allOkEnv freeGuard 1).callbackRemoved = true ∧
    (StartFollowChain allOkEnv freeGuard 1).guard.syncerCancel = none ∧
    (StartFollowChain cancelledEnv freeGuard 1).ret = some FollowError.ctxCancelled ∧
    (StartFollowChain cancelledEnv freeGuard 1).storeClosed = true ∧
    (StartFollowChain cancelledEnv freeGuard 1).cbStoreClosed = true ∧
    (StartFollowChain cancelledEnv freeGuard 1).guard.syncerCancel = none := by
  decide

/-- C1: the claimed retry is dead code.  `errChan` is nil
(`startFollowErrChanIsNil`), and with a nil channel one sync-engine failure
followed by a would-be success makes the controller block forever
(`followLoop ... 1 = none`) instead of the claimed sleep-and-retry; had the
channel been allocated, the loop would indeed retry exactly N+1 = 2 times
with one one-period sleep, as the claim states. -/
theorem followLoop_nil_errChan_never_retries :
    startFollowErrChanIsNil = true ∧
    followLoop startFollowErrChanIsNil 1 = none ∧
    followLoop false 1 = some (2, 1) ∧
    followLoop false 0 = some (1, 0) := by
  decide

/-- C4 counterexample: with a first peer that answers and parses and a
second peer whose response fails to parse, the fetcher does not return the
first peer's successfully parsed response: the parse failure overwrites the
tracked info with nil, and the call fails with the unreachable-peer error
carrying the last error — refuting "returns the last peer's successfully
parsed response when at least one peer succeeded" and "fails ... only when no
peer yields a parseable response". -/
theorem chainInfo_last_good_counterexample :
    chainInfoFromPeers [PeerReply.parsed 7, PeerReply.parseFail 3] =
      FetchResult.noReachablePeer (some 3) ∧
    chainInfoFromPeers [PeerReply.parsed 7, PeerReply.parseFail 3] ≠ FetchResult.ok 7 := by
  decide

/-- C4 amended: the fetcher iterates all peers in order; a transport failure
drops that peer and leaves the tracked candidate unchanged, while a parse
failure clears the candidate (the parse step returns a nil info).  The call
therefore returns the parse result of the last peer whose transport
succeeded — so a later parse failure discards an earlier peer's success — and
fails with the unreachable-peer error carrying the last peer's observed error
whenever that final candidate is empty. -/
theorem chainInfo_last_candidate (rs : List PeerReply) :
    chainInfoFromPeers rs =
      match (parseAttempts rs).getLast? with
      | some (some i) => FetchResult.ok i
      | some none => FetchResult.noReachablePeer (lastObservedErr rs)
      | none => FetchResult.noReachablePeer (lastObservedErr rs) := by
  unfold chainInfoFromPeers lastObservedErr
  rw [chainInfo_foldl]
  cases h : (parseAttempts rs).getLast? with
  | none => simp
  | some v =>
    cases v with
    | none => simp
    | some i => simp

/-- C7: the group-transition predicate rejects `(nil, nil)`, accepts
`(nil, non-nil)` unconditionally, and for two non-nil groups returns exactly
the first failing check of the ordered list (equal genesis time, equal
period, equal beacon identifier, byte-equal genesis seed, transition time not
in the past), short-circuiting; the six error kinds are pairwise distinct.
The embedding is a pure function, so neither group is mutated. -/
theorem validateGroupTransition_characterization :
    (∀ now, validateGroupTransition none none now =
      TransitionOutcome.errKind TransitionError.nilNewGroup) ∧
    (∀ g now, validateGroupTransition none (some g) now = TransitionOutcome.ok) ∧
    (∀ o n now, validateGroupTransition (some o) (some n) now =
      match firstFailing (transitionChecks o n now) with
      | some e => TransitionOutcome.errKind e
      | none => TransitionOutcome.ok) ∧
    List.Nodup [TransitionError.nilNewGroup, TransitionError.genesisTimeMismatch,
      TransitionError.periodMismatch, TransitionError.idMismatch,
      TransitionError.seedMismatch, TransitionError.pastTransition] := by
  refine ⟨fun now => rfl, fun g now => rfl, fun o n now => ?_, by decide⟩
  have hlt : n.transitionTime < now ↔ ¬ now ≤ n.transitionTime := by omega
  by_cases h1 : o.genesisTime = n.genesisTime <;>
  by_cases h2 : o.period = n.period <;>
  by_cases h3 : CompareBeaconIDs o.id n.id = false <;>
  by_cases h4 : o.genesisSeed = n.genesisSeed <;>
  by_cases h5 : now ≤ n.transitionTime <;>
  simp_all [validateGroupTransition, transitionChecks, firstFailing, Bool.not_eq_false]
  all_goals rw [if_neg (by omega)]

end Drand
